import Mathlib

/-!
Verification of the narrative-consistency scoring pipeline of PlayBookLite
(`playbook_lite/timeline_validator.py`, `playbook_lite/archetypal_patterns.py`,
`playbook_lite/narrative_ontology.py`, data types from
`playbook_lite/story_types.py`).

The Python code is shallowly embedded: floats become exact rationals (`ℚ`),
Python dicts become association lists (sum/average computations over dict or
set iteration are order-independent, so an association list with the source's
insertion order is a faithful model), Python sets become deduplicated lists,
and code that can raise is modelled in the `Except String` monad.  Every
division in the scoring code is guarded by an emptiness test in the source;
the embedding keeps those guards, so Lean's `x / 0 = 0` convention is never
exercised on a reachable path.
-/

/- ---------------------------------------------------------------------
   Small Python-semantics helpers
--------------------------------------------------------------------- -/

/-- The characters of a string, lower-cased (model of Python `str.lower()`
restricted to the ASCII letters handled by `Char.toLower`; every string
literal appearing in the repository's scoring tables is ASCII). -/
def lowerChars (s : String) : List Char := s.data.map Char.toLower

/-- Whether `p` occurs as a contiguous sublist of `l`. -/
def listIsInfix (p l : List Char) : Bool :=
  (List.range (l.length + 1)).any (fun i => p.isPrefixOf (l.drop i))

/-- Model of Python `pat.lower() in hay.lower()` (case-insensitive substring
test, true for the empty pattern, exactly as in Python). -/
def containsSub (hay pat : String) : Bool :=
  listIsInfix (lowerChars pat) (lowerChars hay)

/-- Model of Python `d.get(k, default)` on a `str -> float` dict. -/
def dictGet (d : List (String × ℚ)) (k : String) (default : ℚ) : ℚ :=
  (List.lookup k d).getD default

/-- Model of Python `k in d` on a `str`-keyed dict. -/
def hasKey {β : Type} (d : List (String × β)) (k : String) : Bool :=
  d.any (fun kv => kv.1 == k)

/- ---------------------------------------------------------------------
   Data model (playbook_lite/story_types.py)
--------------------------------------------------------------------- -/

/-- `story_types.CharacterAction`: one character's action within a beat. -/
structure CharacterAction where
  character_id : String
  action_text : String
  impact_level : ℚ
  thematic_elements : List (String × ℚ)
  consequences : List String
  is_canonical : Bool := false
deriving DecidableEq

/-- `story_types.StoryState`: the mutable session record.  The save/load
metadata fields (`story_id`, `save_slot`, `save_time`, `version`) are never
read by the validation pipeline and are omitted. -/
structure StoryState where
  current_node_id : String
  canonical_drift : ℚ
  active_themes : List (String × ℚ)
  character_states : List (String × List (String × ℚ))
  available_actions : List CharacterAction
deriving DecidableEq

/-- `story_types.TimelineNode`: one beat of the story timeline.  Note that
the dataclass has no `location` attribute (this matters for
`_extract_narrative_elements` below). -/
structure TimelineNode where
  id : String
  title : String
  description : String
  date : String
  characters_present : List String
  next_nodes : List String
  requirements : List (String × ℚ)
  tension_level : ℚ := 0
  thematic_elements : List (String × ℚ) := []
  is_branch_point : Bool := false
  branch_consequences : List (String × String) := []
  character_actions : List (String × List CharacterAction) := []
  time_of_day : String := "unknown"
  duration : Option Int := none
deriving DecidableEq

/-- All actions of a beat, in dict-of-lists iteration order (model of the
nested loops `for actions in node.character_actions.values(): for action in
actions`). -/
def allActions (node : TimelineNode) : List CharacterAction :=
  (node.character_actions.map Prod.snd).flatten

/- ---------------------------------------------------------------------
   Pattern library (archetypal_patterns.py, NarrativeExcavator.__init__)
--------------------------------------------------------------------- -/

/-- `archetypal_patterns.ArchetypalPattern`.  Python sets of themes are kept
as (duplicate-free) lists in the source's literal order. -/
structure ArchetypalPattern where
  name : String
  core_themes : List String
  character_roles : List (String × String)
  symbolic_elements : List (String × ℚ)
  narrative_tensions : List (String × String)
deriving DecidableEq

instance : Inhabited ArchetypalPattern := ⟨⟨"", [], [], [], []⟩⟩

/-- The "hero_journey" entry of the pattern table. -/
def hero_journey_pattern : ArchetypalPattern :=
  { name := "The Hero\x27s Journey"
    core_themes := ["transformation", "return", "sacrifice"]
    character_roles := [("mentor", "guide"), ("shadow", "challenger"),
                        ("threshold_guardian", "gatekeeper")]
    symbolic_elements := [("crossing_threshold", 4/5), ("descent", 7/10),
                          ("rebirth", 9/10)]
    narrative_tensions := [("ordinary", "extraordinary"), ("fear", "courage"),
                           ("death", "rebirth")] }

/-- The "tragic_fall" entry of the pattern table. -/
def tragic_fall_pattern : ArchetypalPattern :=
  { name := "Tragic Fall"
    core_themes := ["hubris", "nemesis", "recognition"]
    character_roles := [("tragic_hero", "protagonist"), ("nemesis", "antagonist"),
                        ("chorus", "witness")]
    symbolic_elements := [("fatal_flaw", 9/10), ("prophecy", 7/10),
                          ("recognition", 4/5)]
    narrative_tensions := [("pride", "fall"), ("destiny", "free_will"),
                           ("knowledge", "ignorance")] }

/-- The "rebirth" entry of the pattern table. -/
def rebirth_pattern : ArchetypalPattern :=
  { name := "Rebirth"
    core_themes := ["redemption", "forgiveness", "renewal"]
    character_roles := [("fallen_hero", "protagonist"), ("catalyst", "guide"),
                        ("witness", "observer")]
    symbolic_elements := [("darkness", 4/5), ("light", 4/5), ("water", 7/10),
                          ("spring", 3/5)]
    narrative_tensions := [("sin", "redemption"), ("isolation", "connection"),
                           ("past", "future")] }

/-- The "quest" entry of the pattern table. -/
def quest_pattern : ArchetypalPattern :=
  { name := "The Quest"
    core_themes := ["seeking", "discovery", "trial"]
    character_roles := [("seeker", "protagonist"), ("helper", "ally"),
                        ("adversary", "challenger")]
    symbolic_elements := [("journey", 9/10), ("artifact", 4/5), ("obstacle", 7/10)]
    narrative_tensions := [("ignorance", "wisdom"), ("weakness", "strength"),
                           ("doubt", "faith")] }

/-- The static pattern table built in `NarrativeExcavator.__init__`.  It is
identical for every excavator instance and never mutated, so it is embedded
as a module-level constant. -/
def archetypal_patterns : List (String × ArchetypalPattern) :=
  [("hero_journey", hero_journey_pattern), ("tragic_fall", tragic_fall_pattern),
   ("rebirth", rebirth_pattern), ("quest", quest_pattern)]

/- ---------------------------------------------------------------------
   Resonance Calculator (archetypal_patterns.py, NarrativeExcavator)
--------------------------------------------------------------------- -/

/-- `NarrativeExcavator._calculate_thematic_resonance` (lines 139-156). -/
def _calculate_thematic_resonance (core_themes : List String)
    (nodes : List TimelineNode) : ℚ :=
  if nodes = [] then 0
  else
    let total_resonance :=
      (core_themes.map (fun theme =>
        (nodes.map (fun node => dictGet node.thematic_elements theme 0)).sum
          / (nodes.length : ℚ))).sum
    if core_themes = [] then 0 else total_resonance / (core_themes.length : ℚ)

/-- Whether a beat mentions a symbol in its description or in any action
text (the membership test inside `_calculate_symbolic_resonance`). -/
def nodeMentionsSymbol (node : TimelineNode) (symbol : String) : Bool :=
  containsSub node.description symbol
    || (allActions node).any (fun action => containsSub action.action_text symbol)

/-- `NarrativeExcavator._calculate_symbolic_resonance` (lines 158-181). -/
def _calculate_symbolic_resonance (symbols : List (String × ℚ))
    (nodes : List TimelineNode) : ℚ :=
  if nodes = [] ∨ symbols = [] then 0
  else
    let total_resonance :=
      (symbols.map (fun sym =>
        (((nodes.filter (fun node => nodeMentionsSymbol node sym.1)).length : ℚ)
          / (nodes.length : ℚ)) * sym.2)).sum
    if symbols = [] then 0 else total_resonance / (symbols.length : ℚ)

/-- Whether a beat exhibits a tension pair (the membership test inside
`_calculate_tension_resonance`). -/
def nodeHasTension (node : TimelineNode) (a b : String) : Bool :=
  (containsSub node.description a && containsSub node.description b)
    || (decide (dictGet node.thematic_elements a 0 > 3/10)
        && decide (dictGet node.thematic_elements b 0 > 3/10))

/-- `NarrativeExcavator._calculate_tension_resonance` (lines 183-206). -/
def _calculate_tension_resonance (tensions : List (String × String))
    (nodes : List TimelineNode) : ℚ :=
  if nodes = [] ∨ tensions = [] then 0
  else
    let total_resonance :=
      (tensions.map (fun t =>
        (((nodes.filter (fun node => nodeHasTension node t.1 t.2)).length : ℚ)
          / (nodes.length : ℚ)))).sum
    if tensions = [] then 0 else total_resonance / (tensions.length : ℚ)

/-- `NarrativeExcavator._measure_pattern_resonance` (lines 123-137): fixed
0.4 / 0.3 / 0.3 blend of the three sub-scores. -/
def _measure_pattern_resonance (pattern : ArchetypalPattern)
    (nodes : List TimelineNode) : ℚ :=
  _calculate_thematic_resonance pattern.core_themes nodes * (2/5)
    + _calculate_symbolic_resonance pattern.symbolic_elements nodes * (3/10)
    + _calculate_tension_resonance pattern.narrative_tensions nodes * (3/10)

/-- `NarrativeExcavator.excavate_patterns` (lines 106-121): keep the patterns
whose resonance exceeds 0.4, in table order. -/
def excavate_patterns (timeline_nodes : List TimelineNode) : List (String × ℚ) :=
  archetypal_patterns.filterMap (fun pp =>
    let resonance := _measure_pattern_resonance pp.2 timeline_nodes
    if resonance > 2/5 then some (pp.1, resonance) else none)

/-- `NarrativeExcavator._calculate_symbol_depth` (lines 266-298): clamped sum
of a description-presence term, per-action mention terms, theme-strength
terms, and per-action impact terms. -/
def _calculate_symbol_depth (symbol : String) (node : TimelineNode) : ℚ :=
  let base : ℚ := if containsSub node.description symbol then 3/10 else 0
  let action_terms : ℚ :=
    (((allActions node).filter (fun a => containsSub a.action_text symbol)).length : ℚ)
      * (1/5)
  let theme_terms : ℚ :=
    (node.thematic_elements.map (fun kv =>
      if containsSub kv.1 symbol then kv.2 * (3/10) else 0)).sum
  let tension_integration : ℚ :=
    ((allActions node).map (fun a =>
      if containsSub a.action_text symbol then a.impact_level * (1/5) else 0)).sum
  min (base + action_terms + theme_terms + tension_integration) 1

/-- Python `text.lower().split()`: whitespace-separated lower-cased words. -/
def pySplitLower (s : String) : List String :=
  ((String.mk (lowerChars s)).split Char.isWhitespace).filter (fun w => w ≠ "")

/-- `NarrativeExcavator._extract_symbols` (lines 233-264): words of the
description, the action texts, and the theme names that occur in some
pattern's symbolic-element vocabulary.  The source accumulates them in a
Python set; the embedding returns the deduplicated list in first-encounter
order (the set's iteration order is unspecified, and no consumer of the
result depends on it). -/
def _extract_symbols (node : TimelineNode) : List String :=
  let desc_words := pySplitLower node.description
  let action_words := (allActions node).flatMap (fun a => pySplitLower a.action_text)
  let theme_words := node.thematic_elements.map (fun kv => String.mk (lowerChars kv.1))
  ((desc_words ++ action_words ++ theme_words).filter (fun w =>
    archetypal_patterns.any (fun pp => hasKey pp.2.symbolic_elements w))).dedup

/-- Append one depth measurement to a symbol's list (model of
`depths[symbol].append(depth)` with dict insertion order). -/
def appendDepth (acc : List (String × List ℚ)) (sym : String) (d : ℚ) :
    List (String × List ℚ) :=
  match acc with
  | [] => [(sym, [d])]
  | kv :: rest =>
    if kv.1 = sym then (kv.1, kv.2 ++ [d]) :: rest
    else kv :: appendDepth rest sym d

/-- `NarrativeExcavator.analyze_narrative_depth` (lines 208-231). -/
def analyze_narrative_depth (nodes : List TimelineNode) : List (String × List ℚ) :=
  nodes.foldl (fun acc node =>
    (_extract_symbols node).foldl (fun acc2 sym =>
      appendDepth acc2 sym (_calculate_symbol_depth sym node)) acc) []

/- ---------------------------------------------------------------------
   Ontology Builder (narrative_ontology.py)
--------------------------------------------------------------------- -/

/-- `narrative_ontology.FryeMythos`. -/
inductive FryeMythos where
  | comedy | romance | tragedy | irony
deriving DecidableEq

/-- `narrative_ontology.FryeanPattern`. -/
structure FryeanPattern where
  mythos : FryeMythos
  phase : Nat
  character_types : List String
  plot_movements : List String
  symbols : List String
  thematic_elements : List String
  typical_conflicts : List (String × String)
  resonance : ℚ := 0
deriving DecidableEq

/-- `NarrativeOntologyBuilder._initialize_frye_patterns` (lines 88-148): one
phase-1 pattern per mythos. -/
def frye_patterns_init : List (FryeMythos × List FryeanPattern) :=
  [ (FryeMythos.comedy,
     [{ mythos := FryeMythos.comedy, phase := 1
        character_types := ["young lover", "blocking figure", "helper"]
        plot_movements := ["obstacles to union", "recognition", "festive conclusion"]
        symbols := ["spring", "garden", "festival", "marriage"]
        thematic_elements := ["renewal", "reconciliation", "harmony"]
        typical_conflicts := [("youth", "age"), ("freedom", "society")] }]),
    (FryeMythos.romance,
     [{ mythos := FryeMythos.romance, phase := 1
        character_types := ["hero", "companion", "antagonist"]
        plot_movements := ["quest", "journey", "triumph"]
        symbols := ["sword", "holy grail", "magical weapon"]
        thematic_elements := ["adventure", "idealism", "victory"]
        typical_conflicts := [("good", "evil"), ("order", "chaos")] }]),
    (FryeMythos.tragedy,
     [{ mythos := FryeMythos.tragedy, phase := 1
        character_types := ["tragic hero", "nemesis", "chorus"]
        plot_movements := ["hubris", "fall", "recognition"]
        symbols := ["autumn", "sunset", "storm"]
        thematic_elements := ["fate", "pride", "justice"]
        typical_conflicts := [("individual", "fate"), ("ambition", "limitation")] }]),
    (FryeMythos.irony,
     [{ mythos := FryeMythos.irony, phase := 1
        character_types := ["anti-hero", "victim", "society"]
        plot_movements := ["alienation", "absurdity", "cyclic return"]
        symbols := ["winter", "darkness", "maze"]
        thematic_elements := ["disillusionment", "absurdity", "limitation"]
        typical_conflicts := [("illusion", "reality"), ("individual", "society")] }]) ]

/-- `narrative_ontology.NarrativeElement` (the fields that the reachable
code paths can touch; `variations`, `melville_markers` and
`frye_categorization` carry no data on any reachable path and are omitted). -/
structure NarrativeElement where
  id : String
  type : String
  name : String
  attributes : List (String × ℚ)
  relationships : List (String × ℚ)
  archetypal_resonance : List (String × ℚ)
  canonical_source : Option String := none
deriving DecidableEq

/-- `NarrativeOntologyBuilder` instance state used by `analyze_variant`. -/
structure NarrativeOntologyBuilder where
  elements : List (String × NarrativeElement) := []
  canonical_patterns : List (String × List (String × ℚ)) := []
  frye_patterns : List (FryeMythos × List FryeanPattern) := frye_patterns_init

/-- `NarrativeOntologyBuilder._calculate_pattern_resonance` (lines 227-261):
per-node 0.4 / 0.3 / 0.3 blend of character-type, symbol and theme matches,
averaged over the nodes. -/
def _calculate_pattern_resonance (pattern : FryeanPattern)
    (nodes : List TimelineNode) : ℚ :=
  let resonance_scores := nodes.map (fun node =>
    let character_match : ℚ :=
      ((pattern.character_types.filter (fun ct =>
        (allActions node).any (fun a => containsSub a.action_text ct))).length : ℚ)
    let character_score :=
      if pattern.character_types = [] then 0
      else character_match / (pattern.character_types.length : ℚ)
    let symbol_match : ℚ :=
      ((pattern.symbols.filter (fun sy => containsSub node.description sy)).length : ℚ)
    let symbol_score :=
      if pattern.symbols = [] then 0
      else symbol_match / (pattern.symbols.length : ℚ)
    let theme_match : ℚ :=
      ((pattern.thematic_elements.filter (fun t =>
        hasKey node.thematic_elements t)).length : ℚ)
    let theme_score :=
      if pattern.thematic_elements = [] then 0
      else theme_match / (pattern.thematic_elements.length : ℚ)
    character_score * (2/5) + symbol_score * (3/10) + theme_score * (3/10))
  if resonance_scores = [] then 0
  else resonance_scores.sum / (resonance_scores.length : ℚ)

/-- `NarrativeOntologyBuilder._analyze_frye_patterns` (lines 197-225): keep
the patterns with resonance above 0.3, with the measured resonance recorded,
stably sorted by descending resonance. -/
def _analyze_frye_patterns (b : NarrativeOntologyBuilder)
    (nodes : List TimelineNode) : List FryeanPattern :=
  let active := (b.frye_patterns.flatMap Prod.snd).filterMap (fun pattern =>
    let resonance := _calculate_pattern_resonance pattern nodes
    if resonance > 3/10 then some { pattern with resonance := resonance } else none)
  active.mergeSort (fun x y => decide (y.resonance ≤ x.resonance))

/-- `NarrativeOntologyBuilder._extract_narrative_elements` (lines 320-365).
For each node the loop first registers character elements, then evaluates
`location_id = f"location_{node.location}"`.  `story_types.TimelineNode` has
no `location` attribute, so that access raises `AttributeError` on the first
node; the partially built dict is discarded with the exception.  On an empty
node list the loop body never runs and the empty dict is returned. -/
def _extract_narrative_elements (nodes : List TimelineNode) :
    Except String (List (String × NarrativeElement)) :=
  match nodes with
  | [] => .ok []
  | _ :: _ => .error "AttributeError: TimelineNode object has no attribute location"

/-- Field names of the `CanonicalMapping` dataclass
(narrative_ontology.py lines 30-39), in declaration order. -/
def canonicalMapping_fields : List String :=
  ["source_text_id", "canonical_elements", "thematic_fidelity",
   "structural_resonance", "divergent_elements", "frye_patterns",
   "melville_resonance"]

/-- The `CanonicalMapping` fields without a default value: every one of them
must be supplied at a constructor call. -/
def canonicalMapping_required : List String :=
  ["source_text_id", "canonical_elements", "thematic_fidelity",
   "structural_resonance", "divergent_elements"]

/-- The keyword arguments of the `CanonicalMapping(...)` constructor call at
the top of `_create_ontological_mapping` (lines 372-378).  They are the field
names of the *other* dataclass, `OntologicalMapping` (lines 495-503). -/
def createMapping_kwargs : List String :=
  ["base_text_id", "variant_id", "element_mappings",
   "structural_similarities", "archetypal_shifts"]

/-- A Python dataclass constructor call with keyword arguments succeeds iff
every keyword names a field and every field without a default is supplied;
otherwise it raises `TypeError`. -/
def dataclass_call_ok (fields required kwargs : List String) : Bool :=
  kwargs.all (fun k => fields.contains k)
    && required.all (fun f => kwargs.contains f)

/-- `NarrativeOntologyBuilder._create_ontological_mapping` (lines 367-391).
The constructor call is the first statement of the body; when it raises, the
element-mapping and structural-similarity population below it is unreachable,
so the model only decides whether construction succeeds. -/
def _create_ontological_mapping (canonical_id variant_id : String)
    (variant_elements : List (String × NarrativeElement)) : Except String Unit :=
  if dataclass_call_ok canonicalMapping_fields canonicalMapping_required
      createMapping_kwargs then
    .ok ()
  else
    .error "TypeError: CanonicalMapping got an unexpected keyword argument base_text_id"

/-- `NarrativeOntologyBuilder.analyze_variant` (lines 150-195): extract the
variant's elements, analyze the Frye patterns, then build the ontological
mapping.  Any exception is logged and re-raised (`except ... raise`).  The
statements after the mapping construction (Melville resonance, archetypal
shifts, fidelity, storing the mapping) are unreachable because the
construction raises on every input, as proved below. -/
def analyze_variant (b : NarrativeOntologyBuilder)
    (variant_nodes : List TimelineNode) (variant_id : String)
    (canonical_id : String := "moby_dick_original") : Except String Unit := do
  let elements ← _extract_narrative_elements variant_nodes
  let _frye_analysis := _analyze_frye_patterns b variant_nodes
  let _mapping ← _create_ontological_mapping canonical_id variant_id elements
  pure ()

/- ---------------------------------------------------------------------
   Timeline Validator (timeline_validator.py)
--------------------------------------------------------------------- -/

/-- The theme-importance table set in
`TimelineConsistencyValidator.__init__` (lines 17-24). -/
def initial_thematic_weights : List (String × ℚ) :=
  [("revenge", 4/5), ("obsession", 9/10), ("isolation", 7/10),
   ("friendship", 3/5), ("fate", 4/5), ("nature", 7/10)]

/-- `TimelineConsistencyValidator` instance state.  The excavator's static
pattern table is the module constant `archetypal_patterns`; the embedded
ontology builder carries the state `analyze_variant` reads. -/
structure TimelineConsistencyValidator where
  canonical_nodes : List String := []
  character_actions : List (String × List CharacterAction) := []
  thematic_weights : List (String × ℚ) := initial_thematic_weights
  active_patterns : List (String × ℚ) := []
  narrative_depth : List (String × List ℚ) := []
  current_variant_id : Option String := none
  ontology_builder : NarrativeOntologyBuilder := {}

/-- `TimelineConsistencyValidator._get_all_nodes` (lines 280-282): the
placeholder yields nothing. -/
def _get_all_nodes (v : TimelineConsistencyValidator) : List TimelineNode := []

/-- `TimelineConsistencyValidator._is_near_ending` (lines 259-261): the stub
returns `False` unconditionally. -/
def _is_near_ending (v : TimelineConsistencyValidator) (node : TimelineNode) : Bool :=
  false

/-- `TimelineConsistencyValidator._update_canonical_drift` (lines 209-227):
the weighted drift update, clamped to [0, 1] by `min(max(new_drift, 0.0), 1.0)`. -/
def _update_canonical_drift (current_drift : ℚ) (is_canonical_node : Bool)
    (thematic_drift : ℚ) (pattern_consistency : ℚ) : ℚ :=
  let drift_factor : ℚ := if is_canonical_node then 7/10 else 13/10
  let pattern_factor : ℚ := 1 - pattern_consistency
  let new_drift := current_drift * drift_factor * (2/5)
    + thematic_drift * (3/10) + pattern_factor * (3/10)
  min (max new_drift 0) 1

/-- The loop body of `TimelineConsistencyValidator._validate_pattern_consistency`
(lines 229-256): the blended per-pattern consistency score (the
`current_state` parameter of the Python method is never read by the body, so
the score depends only on the next node and the pattern). -/
def pattern_score (next_node : TimelineNode) (pattern : ArchetypalPattern)
    (resonance : ℚ) : ℚ :=
  let theme_match : ℚ :=
    ((pattern.core_themes.filter (fun theme =>
      hasKey next_node.thematic_elements theme)).length : ℚ)
  let theme_score :=
    if pattern.core_themes = [] then 1
    else theme_match / (pattern.core_themes.length : ℚ)
  let role_match : ℚ :=
    ((next_node.characters_present.filter (fun char_id =>
      hasKey pattern.character_roles char_id)).length : ℚ)
  let role_score :=
    if next_node.characters_present = [] then 1
    else role_match / (next_node.characters_present.length : ℚ)
  (theme_score * (3/5) + role_score * (2/5)) * resonance

/-- Body of `TimelineConsistencyValidator._validate_pattern_consistency`
after the loop body is factored out into `pattern_score`. -/
def _validate_pattern_consistency (active_patterns : List (String × ℚ))
    (current_state : StoryState) (next_node : TimelineNode) : ℚ :=
  if active_patterns = [] then 1
  else
    let consistency_scores := active_patterns.filterMap (fun pr =>
      match List.lookup pr.1 archetypal_patterns with
      | none => none
      | some pattern => some (pattern_score next_node pattern pr.2))
    if consistency_scores = [] then 1
    else consistency_scores.sum / (consistency_scores.length : ℚ)

/-- The union of current theme keys, next theme keys and the core themes of
the active patterns (the Python set `all_themes`; the embedding enumerates
the set in first-encounter order, which is immaterial because the two
accumulators below are commutative sums over it). -/
def allThemes (current_themes next_themes : List (String × ℚ))
    (active_patterns : List (String × ℚ)) : List String :=
  ((current_themes.map Prod.fst) ++ (next_themes.map Prod.fst)
    ++ (active_patterns.flatMap (fun pr =>
        match List.lookup pr.1 archetypal_patterns with
        | some pattern => pattern.core_themes
        | none => []))).dedup

/-- The per-theme weight of `_calculate_thematic_drift`: the configured
importance (default 0.5) inflated by `(1 + resonance)` for every active
pattern whose core themes contain the theme. -/
def themeWeight (thematic_weights : List (String × ℚ))
    (active_patterns : List (String × ℚ)) (theme : String) : ℚ :=
  active_patterns.foldl (fun w pr =>
    match List.lookup pr.1 archetypal_patterns with
    | some pattern =>
      if pattern.core_themes.contains theme then w * (1 + pr.2) else w
    | none => w) (dictGet thematic_weights theme (1/2))

/-- `TimelineConsistencyValidator._calculate_thematic_drift`
(lines 174-207), with `self.thematic_weights` passed explicitly. -/
def _calculate_thematic_drift (thematic_weights : List (String × ℚ))
    (current_themes next_themes : List (String × ℚ))
    (active_patterns : List (String × ℚ)) : ℚ :=
  let themes := allThemes current_themes next_themes active_patterns
  let total_drift := (themes.map (fun theme =>
    |dictGet current_themes theme 0 - dictGet next_themes theme 0|
      * themeWeight thematic_weights active_patterns theme)).sum
  let total_weight := (themes.map (fun theme =>
    themeWeight thematic_weights active_patterns theme)).sum
  if total_weight > 0 then total_drift / total_weight else 0

/-- The active patterns in force after the lazy excavation step of
`validate_story_progression`: the field itself when non-empty, otherwise the
result of excavating the (empty) node corpus. -/
def effective_active_patterns (v : TimelineConsistencyValidator) :
    List (String × ℚ) :=
  if v.active_patterns = [] then excavate_patterns (_get_all_nodes v)
  else v.active_patterns

/-- `TimelineConsistencyValidator.validate_story_progression`, second
definition (lines 100-154) — the one Python binds to the attribute name.  The
result threads the validator (whose `active_patterns` / `narrative_depth`
fields the lazy branch assigns) and the story state (which no statement of
the body or of the helpers assigns to) alongside the returned
`(accepted, drift, reason)` triple.  The outer `try` turns an escaped
exception into `(False, 1.0, "Validation error: ...")`; the only statement on
these paths that can raise is the re-raising `analyze_variant` (every other
helper catches its own exceptions), and the lazy-branch assignments made
before that call persist, as they do across a Python `except`. -/
def validate_story_progression_run (v : TimelineConsistencyValidator)
    (current_state : Option StoryState) (next_node : TimelineNode) :
    TimelineConsistencyValidator × Option StoryState × (Bool × ℚ × String) :=
  match current_state with
  | none => (v, none, (false, 1, "Invalid state: Story state not initialized"))
  | some state =>
    match state.available_actions with
    | [] => (v, some state, (true, state.canonical_drift, "No actions available"))
    | first_action :: _ =>
      if next_node.id ∈ first_action.consequences then
        let all_nodes := _get_all_nodes v
        let v2 :=
          if v.active_patterns = [] then
            { v with active_patterns := excavate_patterns all_nodes,
                     narrative_depth := analyze_narrative_depth all_nodes }
          else v
        let variant_analysis : Except String Unit :=
          if v.active_patterns = [] then
            match v.current_variant_id with
            | some vid => analyze_variant v.ontology_builder all_nodes vid
            | none => .ok ()
          else .ok ()
        match variant_analysis with
        | .error e => (v2, some state, (false, 1, "Validation error: " ++ e))
        | .ok _ =>
          let pattern_consistency :=
            _validate_pattern_consistency v2.active_patterns state next_node
          if pattern_consistency < 2/5 then
            (v2, some state,
             (false, 1, "Progression breaks archetypal pattern consistency"))
          else
            let thematic_drift := _calculate_thematic_drift v2.thematic_weights
              state.active_themes next_node.thematic_elements v2.active_patterns
            let new_canonical_drift := _update_canonical_drift
              state.canonical_drift (decide (next_node.id ∈ v2.canonical_nodes))
              thematic_drift pattern_consistency
            if new_canonical_drift > 4/5 ∧ _is_near_ending v2 next_node = true then
              (v2, some state,
               (false, new_canonical_drift,
                "Story diverged too far from canonical ending"))
            else
              (v2, some state, (true, new_canonical_drift, "Valid progression"))
      else
        (v, some state,
         (false, 1, "Invalid story progression - nodes not connected"))

/-- The `(accepted, drift, reason)` triple of `validate_story_progression`. -/
def validate_story_progression (v : TimelineConsistencyValidator)
    (current_state : Option StoryState) (next_node : TimelineNode) :
    Bool × ℚ × String :=
  (validate_story_progression_run v current_state next_node).2.2

/-- `TimelineConsistencyValidator.validate_story_progression`, first
definition (lines 33-87).  Its body is copied here statement by statement
from lines 33-87 exactly as `validate_story_progression_run` is copied from
lines 100-154, so that the extensional equality of the two texts is a
theorem about two independent transcriptions. -/
def validate_story_progression_first_run (v : TimelineConsistencyValidator)
    (current_state : Option StoryState) (next_node : TimelineNode) :
    TimelineConsistencyValidator × Option StoryState × (Bool × ℚ × String) :=
  match current_state with
  | none => (v, none, (false, 1, "Invalid state: Story state not initialized"))
  | some state =>
    match state.available_actions with
    | [] => (v, some state, (true, state.canonical_drift, "No actions available"))
    | first_action :: _ =>
      if next_node.id ∈ first_action.consequences then
        let all_nodes := _get_all_nodes v
        let v2 :=
          if v.active_patterns = [] then
            { v with active_patterns := excavate_patterns all_nodes,
                     narrative_depth := analyze_narrative_depth all_nodes }
          else v
        let variant_analysis : Except String Unit :=
          if v.active_patterns = [] then
            match v.current_variant_id with
            | some vid => analyze_variant v.ontology_builder all_nodes vid
            | none => .ok ()
          else .ok ()
        match variant_analysis with
        | .error e => (v2, some state, (false, 1, "Validation error: " ++ e))
        | .ok _ =>
          let pattern_consistency :=
            _validate_pattern_consistency v2.active_patterns state next_node
          if pattern_consistency < 2/5 then
            (v2, some state,
             (false, 1, "Progression breaks archetypal pattern consistency"))
          else
            let thematic_drift := _calculate_thematic_drift v2.thematic_weights
              state.active_themes next_node.thematic_elements v2.active_patterns
            let new_canonical_drift := _update_canonical_drift
              state.canonical_drift (decide (next_node.id ∈ v2.canonical_nodes))
              thematic_drift pattern_consistency
            if new_canonical_drift > 4/5 ∧ _is_near_ending v2 next_node = true then
              (v2, some state,
               (false, new_canonical_drift,
                "Story diverged too far from canonical ending"))
            else
              (v2, some state, (true, new_canonical_drift, "Valid progression"))
      else
        (v, some state,
         (false, 1, "Invalid story progression - nodes not connected"))

/- ---------------------------------------------------------------------
   Specification-side definition (for the pattern-consistency formula)
   and concrete example inputs
--------------------------------------------------------------------- -/

/-- The pattern-consistency formula as the specification words it: for each
active pattern, (fraction of the pattern's core themes present in the beat's
themes × 0.6 + fraction of the beat's characters present that appear in the
pattern's character roles × 0.4) multiplied by that pattern's resonance,
averaged over all active patterns (1.0 if no pattern is active).  To be
compared with `_validate_pattern_consistency`, which is transcribed from the
source. -/
def patternBlendSpec (beat : TimelineNode) (pattern : ArchetypalPattern)
    (resonance : ℚ) : ℚ :=
  let themeFraction :=
    ((pattern.core_themes.filter (fun theme =>
      hasKey beat.thematic_elements theme)).length : ℚ)
      / (pattern.core_themes.length : ℚ)
  let roleFraction :=
    ((beat.characters_present.filter (fun char_id =>
      hasKey pattern.character_roles char_id)).length : ℚ)
      / (beat.characters_present.length : ℚ)
  (themeFraction * (3/5) + roleFraction * (2/5)) * resonance

/-- The averaged spec-side pattern consistency (1.0 if no pattern is
active). -/
def patternConsistencySpec (active_patterns : List (String × ℚ))
    (beat : TimelineNode) : ℚ :=
  if active_patterns = [] then 1
  else
    (active_patterns.map (fun pr =>
      patternBlendSpec beat ((List.lookup pr.1 archetypal_patterns).getD default)
        pr.2)).sum / (active_patterns.length : ℚ)

/-- Example action whose only consequence is beat "2". -/
def exActionTo2 : CharacterAction :=
  { character_id := "ishmael"
    action_text := "ponder the sea"
    impact_level := 1
    thematic_elements := []
    consequences := ["2"] }

/-- Example state: drift 0.2, no active themes, one available action. -/
def exState : StoryState :=
  { current_node_id := "1"
    canonical_drift := 1/5
    active_themes := []
    character_states := []
    available_actions := [exActionTo2] }

/-- Example next beat with id "3" (not a consequence of `exActionTo2`). -/
def exNode3 : TimelineNode :=
  { id := "3", title := "t", description := "d", date := "1850-01-01"
    characters_present := [], next_nodes := [], requirements := [] }

/-- Example next beat with id "2" (a consequence of `exActionTo2`). -/
def exNode2 : TimelineNode :=
  { id := "2", title := "t", description := "d", date := "1850-01-01"
    characters_present := [], next_nodes := [], requirements := [] }

/-- A freshly constructed validator (all defaults). -/
def exValidator0 : TimelineConsistencyValidator := {}

/-- A fresh validator that registered beat "2" as canonical. -/
def exValidatorC2 : TimelineConsistencyValidator := { canonical_nodes := ["2"] }

/-- A validator with one active pattern (tragic fall, resonance 0.5). -/
def exValidatorC3 : TimelineConsistencyValidator :=
  { active_patterns := [("tragic_fall", 1/2)] }

/-- Example next beat sharing no themes and no character roles with the
tragic-fall pattern. -/
def exNodeC3 : TimelineNode :=
  { id := "2", title := "t", description := "d", date := "1850-01-01"
    characters_present := ["ishmael"], next_nodes := [], requirements := [] }

/-- A state whose drift is already 1.0 and that has no available actions. -/
def cxStateNoActions : StoryState :=
  { current_node_id := "1"
    canonical_drift := 1
    active_themes := []
    character_states := []
    available_actions := [] }

/-- Example action mentioning "whale" with impact level 1. -/
def exActionWhale : CharacterAction :=
  { character_id := "ishmael"
    action_text := "chase the whale"
    impact_level := 1
    thematic_elements := []
    consequences := [] }

/-- Example beat whose symbol-depth contributions for "whale" sum to 1.9
before clamping: description mention (0.3) + four mentioning actions
(4 × 0.2) + four impact terms (4 × 1 × 0.2). -/
def exNodeC7 : TimelineNode :=
  { id := "1", title := "t", description := "the whale rises"
    date := "1850-01-01", characters_present := ["ishmael"], next_nodes := []
    requirements := []
    thematic_elements := [("obsession", 1)]
    character_actions :=
      [("ishmael", [exActionWhale, exActionWhale, exActionWhale, exActionWhale])] }

/-- Small pattern used to instantiate the resonance-bounds theorem. -/
def exPatternC5 : ArchetypalPattern :=
  { name := "example"
    core_themes := ["obsession"]
    character_roles := []
    symbolic_elements := [("whale", 9/10)]
    narrative_tensions := [("fear", "courage")] }

/- ---------------------------------------------------------------------
   Helper lemmas
--------------------------------------------------------------------- -/

lemma thematic_resonance_nil (core_themes : List String) :
    _calculate_thematic_resonance core_themes [] = 0 := by
  simp [_calculate_thematic_resonance]

lemma symbolic_resonance_nil (symbols : List (String × ℚ)) :
    _calculate_symbolic_resonance symbols [] = 0 := by
  simp [_calculate_symbolic_resonance]

lemma tension_resonance_nil (tensions : List (String × String)) :
    _calculate_tension_resonance tensions [] = 0 := by
  simp [_calculate_tension_resonance]

lemma measure_pattern_resonance_nil (pattern : ArchetypalPattern) :
    _measure_pattern_resonance pattern [] = 0 := by
  simp [_measure_pattern_resonance, thematic_resonance_nil, symbolic_resonance_nil,
    tension_resonance_nil]

lemma excavate_patterns_nil : excavate_patterns [] = [] := by
  simp only [excavate_patterns, measure_pattern_resonance_nil]
  norm_num [archetypal_patterns]

/-- A sum of list entries bounded by 1 is bounded by the length. -/
lemma rat_sum_le_length (l : List ℚ) (h : ∀ x ∈ l, x ≤ 1) :
    l.sum ≤ (l.length : ℚ) := by
  induction l with
  | nil => simp
  | cons a t ih =>
    simp only [List.sum_cons, List.length_cons]
    push_cast
    have ha := h a (by simp)
    have ht := ih (fun x hx => h x (by simp [hx]))
    linarith

/-- The average of a list of values in [0, 1] lies in [0, 1] (also for the
empty list, where the guarded code never divides and the unguarded `0 / 0`
is 0). -/
lemma rat_avg_bounds (l : List ℚ) (h0 : ∀ x ∈ l, 0 ≤ x) (h1 : ∀ x ∈ l, x ≤ 1) :
    0 ≤ l.sum / (l.length : ℚ) ∧ l.sum / (l.length : ℚ) ≤ 1 := by
  rcases eq_or_ne l [] with rfl | hne
  · simp
  · have hpos : (0 : ℚ) < (l.length : ℚ) := by
      exact_mod_cast List.length_pos.mpr hne
    refine ⟨div_nonneg (List.sum_nonneg h0) (le_of_lt hpos), ?_⟩
    rw [div_le_one hpos]
    exact rat_sum_le_length l h1

/-- A successful association-list lookup returns a stored pair. -/
lemma lookup_mem {β : Type} (k : String) (l : List (String × β)) (v : β)
    (h : List.lookup k l = some v) : (k, v) ∈ l := by
  induction l with
  | nil => simp at h
  | cons a t ih =>
    obtain ⟨ka, va⟩ := a
    rw [List.lookup_cons] at h
    cases hk : (k == ka) with
    | false =>
      rw [hk] at h
      exact List.mem_cons_of_mem _ (ih h)
    | true =>
      rw [hk] at h
      have hkey : k = ka := by simpa [beq_iff_eq] using hk
      have hval : va = v := by simpa using h
      subst hkey
      subst hval
      exact List.mem_cons_self _ _

/-- `dictGet` stays within [0, 1] when the stored values and the default do. -/
lemma dictGet_bounds (d : List (String × ℚ)) (k : String) (dflt : ℚ)
    (h : ∀ kv ∈ d, 0 ≤ kv.2 ∧ kv.2 ≤ 1) (hd : 0 ≤ dflt ∧ dflt ≤ 1) :
    0 ≤ dictGet d k dflt ∧ dictGet d k dflt ≤ 1 := by
  unfold dictGet
  cases hlk : List.lookup k d with
  | none => simpa using hd
  | some v =>
    have := h (k, v) (lookup_mem k d v hlk)
    simpa using this

/-- Average per-beat strength of one theme lies in [0, 1]. -/
lemma theme_presence_bounds (nodes : List TimelineNode) (theme : String)
    (hth : ∀ node ∈ nodes, ∀ kv ∈ node.thematic_elements, 0 ≤ kv.2 ∧ kv.2 ≤ 1) :
    0 ≤ (nodes.map (fun node => dictGet node.thematic_elements theme 0)).sum
        / (nodes.length : ℚ) ∧
      (nodes.map (fun node => dictGet node.thematic_elements theme 0)).sum
        / (nodes.length : ℚ) ≤ 1 := by
  have h := rat_avg_bounds (nodes.map (fun node => dictGet node.thematic_elements theme 0))
    (by
      intro x hx
      obtain ⟨node, hnode, rfl⟩ := List.mem_map.mp hx
      exact (dictGet_bounds _ _ _ (hth node hnode) (by norm_num)).1)
    (by
      intro x hx
      obtain ⟨node, hnode, rfl⟩ := List.mem_map.mp hx
      exact (dictGet_bounds _ _ _ (hth node hnode) (by norm_num)).2)
  rwa [List.length_map] at h

lemma thematic_resonance_bounds (core_themes : List String) (nodes : List TimelineNode)
    (hth : ∀ node ∈ nodes, ∀ kv ∈ node.thematic_elements, 0 ≤ kv.2 ∧ kv.2 ≤ 1) :
    0 ≤ _calculate_thematic_resonance core_themes nodes ∧
      _calculate_thematic_resonance core_themes nodes ≤ 1 := by
  unfold _calculate_thematic_resonance
  by_cases hn : nodes = []
  · simp [hn]
  · simp only [if_neg hn]
    by_cases hc : core_themes = []
    · simp [hc]
    · simp only [if_neg hc]
      have h := rat_avg_bounds (core_themes.map (fun theme =>
          (nodes.map (fun node => dictGet node.thematic_elements theme 0)).sum
            / (nodes.length : ℚ)))
        (by
          intro x hx
          obtain ⟨theme, _, rfl⟩ := List.mem_map.mp hx
          exact (theme_presence_bounds nodes theme hth).1)
        (by
          intro x hx
          obtain ⟨theme, _, rfl⟩ := List.mem_map.mp hx
          exact (theme_presence_bounds nodes theme hth).2)
      rwa [List.length_map] at h

/-- The fraction of beats satisfying a predicate lies in [0, 1]. -/
lemma beat_fraction_bounds (nodes : List TimelineNode) (p : TimelineNode → Bool)
    (hn : nodes ≠ []) :
    0 ≤ ((nodes.filter p).length : ℚ) / (nodes.length : ℚ) ∧
      ((nodes.filter p).length : ℚ) / (nodes.length : ℚ) ≤ 1 := by
  have hpos : (0 : ℚ) < (nodes.length : ℚ) := by
    exact_mod_cast List.length_pos.mpr hn
  constructor
  · positivity
  · rw [div_le_one hpos]
    exact_mod_cast List.length_filter_le p nodes

lemma symbolic_resonance_bounds (symbols : List (String × ℚ)) (nodes : List TimelineNode)
    (hsym : ∀ kv ∈ symbols, 0 ≤ kv.2 ∧ kv.2 ≤ 1) :
    0 ≤ _calculate_symbolic_resonance symbols nodes ∧
      _calculate_symbolic_resonance symbols nodes ≤ 1 := by
  unfold _calculate_symbolic_resonance
  by_cases hguard : nodes = [] ∨ symbols = []
  · simp [hguard]
  · push_neg at hguard
    obtain ⟨hn, hs⟩ := hguard
    simp only [if_neg (by tauto : ¬(nodes = [] ∨ symbols = [])), if_neg hs]
    have h := rat_avg_bounds (symbols.map (fun sym =>
        (((nodes.filter (fun node => nodeMentionsSymbol node sym.1)).length : ℚ)
          / (nodes.length : ℚ)) * sym.2))
      (by
        intro x hx
        obtain ⟨sym, hmem, rfl⟩ := List.mem_map.mp hx
        exact mul_nonneg
          (beat_fraction_bounds nodes (fun node => nodeMentionsSymbol node sym.1) hn).1
          (hsym sym hmem).1)
      (by
        intro x hx
        obtain ⟨sym, hmem, rfl⟩ := List.mem_map.mp hx
        exact mul_le_one₀
          (beat_fraction_bounds nodes (fun node => nodeMentionsSymbol node sym.1) hn).2
          (hsym sym hmem).1 (hsym sym hmem).2)
    rwa [List.length_map] at h

lemma tension_resonance_bounds (tensions : List (String × String))
    (nodes : List TimelineNode) :
    0 ≤ _calculate_tension_resonance tensions nodes ∧
      _calculate_tension_resonance tensions nodes ≤ 1 := by
  unfold _calculate_tension_resonance
  by_cases hguard : nodes = [] ∨ tensions = []
  · simp [hguard]
  · push_neg at hguard
    obtain ⟨hn, ht⟩ := hguard
    simp only [if_neg (by tauto : ¬(nodes = [] ∨ tensions = [])), if_neg ht]
    have h := rat_avg_bounds (tensions.map (fun t =>
        (((nodes.filter (fun node => nodeHasTension node t.1 t.2)).length : ℚ)
          / (nodes.length : ℚ))))
      (by
        intro x hx
        obtain ⟨t, _, rfl⟩ := List.mem_map.mp hx
        exact (beat_fraction_bounds nodes (fun node => nodeHasTension node t.1 t.2) hn).1)
      (by
        intro x hx
        obtain ⟨t, _, rfl⟩ := List.mem_map.mp hx
        exact (beat_fraction_bounds nodes (fun node => nodeHasTension node t.1 t.2) hn).2)
    rwa [List.length_map] at h

lemma measure_pattern_resonance_bounds (pattern : ArchetypalPattern)
    (nodes : List TimelineNode)
    (hth : ∀ node ∈ nodes, ∀ kv ∈ node.thematic_elements, 0 ≤ kv.2 ∧ kv.2 ≤ 1)
    (hsym : ∀ kv ∈ pattern.symbolic_elements, 0 ≤ kv.2 ∧ kv.2 ≤ 1) :
    0 ≤ _measure_pattern_resonance pattern nodes ∧
      _measure_pattern_resonance pattern nodes ≤ 1 := by
  obtain ⟨t0, t1⟩ := thematic_resonance_bounds pattern.core_themes nodes hth
  obtain ⟨s0, s1⟩ := symbolic_resonance_bounds pattern.symbolic_elements nodes hsym
  obtain ⟨n0, n1⟩ := tension_resonance_bounds pattern.narrative_tensions nodes
  unfold _measure_pattern_resonance
  constructor <;> nlinarith

/-- Membership in the flattened action lists of a beat. -/
lemma mem_allActions {a : CharacterAction} {node : TimelineNode}
    (h : a ∈ allActions node) : ∃ entry ∈ node.character_actions, a ∈ entry.2 := by
  unfold allActions at h
  obtain ⟨l, hl, hal⟩ := List.mem_flatten.mp h
  obtain ⟨entry, hentry, rfl⟩ := List.mem_map.mp hl
  exact ⟨entry, hentry, hal⟩

/- ---------------------------------------------------------------------
   Claim theorems
--------------------------------------------------------------------- -/

/-- Claim C4: for every archetypal pattern, the resonance of the empty beat
sequence is exactly 0, and each of the thematic, symbolic and tension
sub-scores is 0 on the empty node list (the emptiness guards fire before any
division, so no division by zero and no exception occurs). -/
theorem claim_C4_empty_resonance (pattern : ArchetypalPattern) :
    _measure_pattern_resonance pattern [] = 0 ∧
      _calculate_thematic_resonance pattern.core_themes [] = 0 ∧
      _calculate_symbolic_resonance pattern.symbolic_elements [] = 0 ∧
      _calculate_tension_resonance pattern.narrative_tensions [] = 0 :=
  ⟨measure_pattern_resonance_nil pattern,
   thematic_resonance_nil pattern.core_themes,
   symbolic_resonance_nil pattern.symbolic_elements,
   tension_resonance_nil pattern.narrative_tensions⟩

/-- Claim C5: when every per-beat theme strength and every symbolic-element
weight of the pattern lies in [0, 1], each of the three sub-scores and the
final 0.4/0.3/0.3-weighted resonance lies in [0, 1]. -/
theorem claim_C5_resonance_bounds (pattern : ArchetypalPattern)
    (nodes : List TimelineNode)
    (hth : ∀ node ∈ nodes, ∀ kv ∈ node.thematic_elements, 0 ≤ kv.2 ∧ kv.2 ≤ 1)
    (hsym : ∀ kv ∈ pattern.symbolic_elements, 0 ≤ kv.2 ∧ kv.2 ≤ 1) :
    (0 ≤ _calculate_thematic_resonance pattern.core_themes nodes ∧
      _calculate_thematic_resonance pattern.core_themes nodes ≤ 1) ∧
    (0 ≤ _calculate_symbolic_resonance pattern.symbolic_elements nodes ∧
      _calculate_symbolic_resonance pattern.symbolic_elements nodes ≤ 1) ∧
    (0 ≤ _calculate_tension_resonance pattern.narrative_tensions nodes ∧
      _calculate_tension_resonance pattern.narrative_tensions nodes ≤ 1) ∧
    (0 ≤ _measure_pattern_resonance pattern nodes ∧
      _measure_pattern_resonance pattern nodes ≤ 1) :=
  ⟨thematic_resonance_bounds pattern.core_themes nodes hth,
   symbolic_resonance_bounds pattern.symbolic_elements nodes hsym,
   tension_resonance_bounds pattern.narrative_tensions nodes,
   measure_pattern_resonance_bounds pattern nodes hth hsym⟩

/-- Witness for C5 at a concrete pattern and a concrete one-beat sequence. -/
theorem claim_C5_witness :
    (∀ node ∈ [exNodeC7], ∀ kv ∈ node.thematic_elements, 0 ≤ kv.2 ∧ kv.2 ≤ 1) ∧
    (∀ kv ∈ exPatternC5.symbolic_elements, 0 ≤ kv.2 ∧ kv.2 ≤ 1) ∧
    ((0 ≤ _calculate_thematic_resonance exPatternC5.core_themes [exNodeC7] ∧
      _calculate_thematic_resonance exPatternC5.core_themes [exNodeC7] ≤ 1) ∧
    (0 ≤ _calculate_symbolic_resonance exPatternC5.symbolic_elements [exNodeC7] ∧
      _calculate_symbolic_resonance exPatternC5.symbolic_elements [exNodeC7] ≤ 1) ∧
    (0 ≤ _calculate_tension_resonance exPatternC5.narrative_tensions [exNodeC7] ∧
      _calculate_tension_resonance exPatternC5.narrative_tensions [exNodeC7] ≤ 1) ∧
    (0 ≤ _measure_pattern_resonance exPatternC5 [exNodeC7] ∧
      _measure_pattern_resonance exPatternC5 [exNodeC7] ≤ 1)) := by
  have hth : ∀ node ∈ [exNodeC7], ∀ kv ∈ node.thematic_elements,
      0 ≤ kv.2 ∧ kv.2 ≤ 1 := by
    intro node hn kv hkv
    simp only [List.mem_singleton] at hn
    subst hn
    simp only [exNodeC7, List.mem_singleton] at hkv
    subst hkv
    norm_num
  have hsym : ∀ kv ∈ exPatternC5.symbolic_elements, 0 ≤ kv.2 ∧ kv.2 ≤ 1 := by
    intro kv hkv
    simp only [exPatternC5, List.mem_singleton] at hkv
    subst hkv
    norm_num
  exact ⟨hth, hsym, claim_C5_resonance_bounds exPatternC5 [exNodeC7] hth hsym⟩

/-- Claim C7: with action impact levels and theme strengths in [0, 1], the
per-occurrence symbol depth lies in [0, 1]: the contributing terms are all
nonnegative and `min(depth, 1.0)` clamps from above. -/
theorem claim_C7_symbol_depth_bounds (symbol : String) (node : TimelineNode)
    (himp : ∀ entry ∈ node.character_actions, ∀ a ∈ entry.2,
      0 ≤ a.impact_level ∧ a.impact_level ≤ 1)
    (hth : ∀ kv ∈ node.thematic_elements, 0 ≤ kv.2 ∧ kv.2 ≤ 1) :
    0 ≤ _calculate_symbol_depth symbol node ∧
      _calculate_symbol_depth symbol node ≤ 1 := by
  unfold _calculate_symbol_depth
  have hbase : (0 : ℚ) ≤
      (if containsSub node.description symbol then (3 : ℚ)/10 else 0) := by
    split <;> norm_num
  have hact : (0 : ℚ) ≤
      ((((allActions node).filter
          (fun a => containsSub a.action_text symbol)).length : ℚ)) * (1/5) := by
    positivity
  have hthm : (0 : ℚ) ≤ (node.thematic_elements.map (fun kv =>
      if containsSub kv.1 symbol then kv.2 * (3/10) else 0)).sum := by
    refine List.sum_nonneg ?_
    intro x hx
    obtain ⟨kv, hkv, rfl⟩ := List.mem_map.mp hx
    split
    · exact mul_nonneg (hth kv hkv).1 (by norm_num)
    · exact le_refl 0
  have htens : (0 : ℚ) ≤ ((allActions node).map (fun a =>
      if containsSub a.action_text symbol then a.impact_level * (1/5) else 0)).sum := by
    refine List.sum_nonneg ?_
    intro x hx
    obtain ⟨a, ha, rfl⟩ := List.mem_map.mp hx
    obtain ⟨entry, hentry, hmem⟩ := mem_allActions ha
    split
    · exact mul_nonneg (himp entry hentry a hmem).1 (by norm_num)
    · exact le_refl 0
  constructor
  · exact le_min (by linarith) zero_le_one
  · exact min_le_right _ _

/-- Witness for C7: beat `exNodeC7` and symbol "whale", whose raw
contributions sum to 1.9 before the clamp (the `= 1` conjunct shows the
clamped value). -/
theorem claim_C7_witness :
    (∀ entry ∈ exNodeC7.character_actions, ∀ a ∈ entry.2,
      0 ≤ a.impact_level ∧ a.impact_level ≤ 1) ∧
    (∀ kv ∈ exNodeC7.thematic_elements, 0 ≤ kv.2 ∧ kv.2 ≤ 1) ∧
    (0 ≤ _calculate_symbol_depth "whale" exNodeC7 ∧
      _calculate_symbol_depth "whale" exNodeC7 ≤ 1) ∧
    _calculate_symbol_depth "whale" exNodeC7 = 1 := by
  have himp : ∀ entry ∈ exNodeC7.character_actions, ∀ a ∈ entry.2,
      0 ≤ a.impact_level ∧ a.impact_level ≤ 1 := by
    intro entry hentry a ha
    simp only [exNodeC7, List.mem_singleton] at hentry
    subst hentry
    simp only [exActionWhale, List.mem_cons, List.not_mem_nil, or_false] at ha
    rcases ha with rfl | rfl | rfl | rfl <;> norm_num
  have hth : ∀ kv ∈ exNodeC7.thematic_elements, 0 ≤ kv.2 ∧ kv.2 ≤ 1 := by
    intro kv hkv
    simp only [exNodeC7, List.mem_singleton] at hkv
    subst hkv
    norm_num
  have hdesc : containsSub "the whale rises" "whale" = true := by decide
  have hact : containsSub "chase the whale" "whale" = true := by decide
  have hobs : containsSub "obsession" "whale" = false := by decide
  have heval : _calculate_symbol_depth "whale" exNodeC7 = 1 := by
    simp only [_calculate_symbol_depth, exNodeC7, exActionWhale, allActions,
      List.map_cons, List.map_nil, List.flatten, List.append_nil,
      List.filter, hdesc, hact, hobs, List.sum_cons, List.sum_nil,
      List.length_cons, List.length_nil]
    norm_num [min_def]
  exact ⟨himp, hth, claim_C7_symbol_depth_bounds "whale" exNodeC7 himp hth, heval⟩

/-- `analyze_variant` raises on every input: on a non-empty variant the
element extraction hits the missing `location` attribute, and on an empty
variant the `CanonicalMapping(...)` construction receives the keyword
arguments of `OntologicalMapping`. -/
lemma analyze_variant_error (b : NarrativeOntologyBuilder)
    (nodes : List TimelineNode) (vid cid : String) :
    ∃ msg, analyze_variant b nodes vid cid = Except.error msg := by
  cases nodes with
  | nil => exact ⟨_, rfl⟩
  | cons x xs => exact ⟨_, rfl⟩

/-- Claim C6 (a code bug): `_create_ontological_mapping` constructs the
`CanonicalMapping` dataclass with the field names of `OntologicalMapping`
(`base_text_id`, ...), none of which matches `CanonicalMapping`'s required
fields (`source_text_id`, ...), so the constructor call raises `TypeError`
and `analyze_variant` re-raises instead of completing — for a variant
identical to its reference just as for any other input, so no canonical
fidelity is ever produced. -/
theorem claim_C6_analyze_variant_never_completes :
    dataclass_call_ok canonicalMapping_fields canonicalMapping_required
      createMapping_kwargs = false ∧
    ∀ (b : NarrativeOntologyBuilder) (variant_nodes : List TimelineNode)
      (variant_id canonical_id : String),
      ∃ msg, analyze_variant b variant_nodes variant_id canonical_id
        = Except.error msg := by
  constructor
  · decide
  · intro b variant_nodes variant_id canonical_id
    exact analyze_variant_error b variant_nodes variant_id canonical_id

/-- Claim C8: the two transcriptions of the duplicated
`validate_story_progression` bodies (source lines 33-87 and lines 100-154,
which are textually identical in the source) are extensionally equal on
every validator, state and next beat. -/
theorem claim_C8_duplicate_definitions_equal (v : TimelineConsistencyValidator)
    (current_state : Option StoryState) (next_node : TimelineNode) :
    validate_story_progression_first_run v current_state next_node
      = validate_story_progression_run v current_state next_node := rfl

/-- Claim C9: `validate_story_progression` never assigns to the story state:
the state component of the threaded result is the input state itself, on
every path (accepted or rejected), so every field of the passed `StoryState`
is unchanged and the new drift is only returned. -/
theorem claim_C9_state_unchanged (v : TimelineConsistencyValidator)
    (s : StoryState) (n : TimelineNode) :
    (validate_story_progression_run v (some s) n).2.1 = some s := by
  unfold validate_story_progression_run
  cases hA : s.available_actions with
  | nil => simp only [hA]
  | cons a rest =>
    simp only [hA]
    by_cases hc : n.id ∈ a.consequences
    · rw [if_pos hc]
      repeat' split
      all_goals rfl
    · rw [if_neg hc]

/-- Every call either accepts or returns drift exactly 1: the only rejection
branch that would return a computed drift (excessive divergence) is guarded
by `_is_near_ending`, which returns `False` unconditionally. -/
lemma validate_accept_or_drift_one (v : TimelineConsistencyValidator)
    (current_state : Option StoryState) (n : TimelineNode) :
    (validate_story_progression v current_state n).1 = true ∨
      (validate_story_progression v current_state n).2.1 = 1 := by
  unfold validate_story_progression validate_story_progression_run
  cases current_state with
  | none => right; rfl
  | some s =>
    cases hA : s.available_actions with
    | nil => left; simp only [hA]
    | cons a rest =>
      simp only [hA]
      by_cases hc : n.id ∈ a.consequences
      · rw [if_pos hc]
        repeat' split
        all_goals first
          | (left; rfl)
          | (right; rfl)
          | simp_all [_is_near_ending]
      · rw [if_neg hc]; right; rfl

/-- Claim C10: whenever `validate_story_progression` rejects — uninitialized
state, disconnected beat, pattern consistency below 0.4, or a caught internal
exception — the returned drift is exactly 1, independent of the state's
current canonical drift.  (The excessive-divergence rejection, the one branch
of the source that would return the newly computed drift instead, is
unreachable because `_is_near_ending` is a stub returning `False`, so every
reachable rejection carries drift 1.) -/
theorem claim_C10_rejection_drift_one (v : TimelineConsistencyValidator)
    (current_state : Option StoryState) (n : TimelineNode)
    (hrej : (validate_story_progression v current_state n).1 = false) :
    (validate_story_progression v current_state n).2.1 = 1 := by
  rcases validate_accept_or_drift_one v current_state n with h | h
  · rw [h] at hrej; cases hrej
  · exact h

/-- Witness for C10: the uninitialized-state rejection carries drift 1. -/
theorem claim_C10_witness :
    (validate_story_progression exValidator0 none exNode2).1 = false ∧
    (validate_story_progression exValidator0 none exNode2).2.1 = 1 :=
  ⟨rfl, claim_C10_rejection_drift_one exValidator0 none exNode2 rfl⟩

/-- Claim C1: with an initialized state, a non-empty action list, and a next
beat whose id is not among the first available action's consequences, the
transition is rejected with the not-connected reason (and drift 1). -/
theorem claim_C1_not_connected_rejected (v : TimelineConsistencyValidator)
    (s : StoryState) (n : TimelineNode) (a : CharacterAction)
    (rest : List CharacterAction)
    (hA : s.available_actions = a :: rest)
    (hnot : n.id ∉ a.consequences) :
    validate_story_progression v (some s) n
      = (false, 1, "Invalid story progression - nodes not connected") := by
  unfold validate_story_progression validate_story_progression_run
  simp only [hA]
  rw [if_neg hnot]

/-- Witness for C1: the current action lists only "2" as a consequence and
the next beat has id "3". -/
theorem claim_C1_witness :
    exState.available_actions = exActionTo2 :: [] ∧
    exNode3.id ∉ exActionTo2.consequences ∧
    validate_story_progression exValidator0 (some exState) exNode3
      = (false, 1, "Invalid story progression - nodes not connected") :=
  ⟨rfl, by decide,
   claim_C1_not_connected_rejected exValidator0 exState exNode3 exActionTo2 []
     rfl (by decide)⟩

/-- On a connected transition whose lazy-excavation step cannot raise
(either the patterns were already excavated, or no variant id is set), the
call reduces to the pattern-consistency gate followed by the drift update
(the divergence gate never fires because `_is_near_ending` returns
`False`). -/
lemma validate_connected_characterization (v : TimelineConsistencyValidator)
    (s : StoryState) (n : TimelineNode) (a : CharacterAction)
    (rest : List CharacterAction)
    (hA : s.available_actions = a :: rest)
    (hconn : n.id ∈ a.consequences)
    (hvar : v.active_patterns ≠ [] ∨ v.current_variant_id = none) :
    validate_story_progression v (some s) n =
      (if _validate_pattern_consistency (effective_active_patterns v) s n < 2/5 then
        (false, 1, "Progression breaks archetypal pattern consistency")
      else
        (true,
         _update_canonical_drift s.canonical_drift
           (decide (n.id ∈ v.canonical_nodes))
           (_calculate_thematic_drift v.thematic_weights s.active_themes
             n.thematic_elements (effective_active_patterns v))
           (_validate_pattern_consistency (effective_active_patterns v) s n),
         "Valid progression")) := by
  unfold validate_story_progression validate_story_progression_run
  simp only [hA]
  rw [if_pos hconn]
  by_cases hap : v.active_patterns = []
  · rcases hvar with hne | hvid
    · exact absurd hap hne
    · simp only [if_pos hap, hvid, effective_active_patterns, _is_near_ending]
      split
      · rfl
      · simp
  · simp only [if_neg hap, effective_active_patterns, _is_near_ending]
    split
    · rfl
    · simp

/-- Claim C2 (amended): for every accepted transition *from a state with a
non-empty available-action list*, the returned drift equals
`current_drift × (0.7 if the next beat is canonical else 1.3) × 0.4 +
thematic_drift × 0.3 + (1 − pattern_consistency) × 0.3`, clamped to [0, 1].
(The restriction to non-empty action lists is forced by the source's early
accept at `if not current_state.available_actions`, which returns the
*unchanged* drift; see the counterexample.) -/
theorem claim_C2_accepted_drift_formula (v : TimelineConsistencyValidator)
    (s : StoryState) (n : TimelineNode) (a : CharacterAction)
    (rest : List CharacterAction)
    (hA : s.available_actions = a :: rest)
    (hacc : (validate_story_progression v (some s) n).1 = true) :
    (validate_story_progression v (some s) n).2.1 =
      min (max (s.canonical_drift * (if n.id ∈ v.canonical_nodes then (7:ℚ)/10 else 13/10) * (2/5)
        + _calculate_thematic_drift v.thematic_weights s.active_themes
            n.thematic_elements (effective_active_patterns v) * (3/10)
        + (1 - _validate_pattern_consistency (effective_active_patterns v) s n) * (3/10)) 0) 1 := by
  by_cases hc : n.id ∈ a.consequences
  · by_cases hap : v.active_patterns = []
    · cases hvid : v.current_variant_id with
      | some vid =>
        exfalso
        obtain ⟨msg, herr⟩ :=
          analyze_variant_error v.ontology_builder (_get_all_nodes v) vid
            "moby_dick_original"
        unfold validate_story_progression validate_story_progression_run at hacc
        simp only [hA] at hacc
        rw [if_pos hc] at hacc
        simp only [if_pos hap, hvid, herr] at hacc
        exact Bool.false_ne_true hacc
      | none =>
        rw [validate_connected_characterization v s n a rest hA hc (Or.inr hvid)]
          at hacc ⊢
        by_cases hpc :
            _validate_pattern_consistency (effective_active_patterns v) s n < 2/5
        · rw [if_pos hpc] at hacc; simp at hacc
        · rw [if_neg hpc]
          unfold _update_canonical_drift
          simp only [decide_eq_true_eq]
    · rw [validate_connected_characterization v s n a rest hA hc (Or.inl hap)]
        at hacc ⊢
      by_cases hpc :
          _validate_pattern_consistency (effective_active_patterns v) s n < 2/5
      · rw [if_pos hpc] at hacc; simp at hacc
      · rw [if_neg hpc]
        unfold _update_canonical_drift
        simp only [decide_eq_true_eq]
  · exfalso
    unfold validate_story_progression validate_story_progression_run at hacc
    simp only [hA] at hacc
    rw [if_neg hc] at hacc
    simp at hacc

/-- A fresh validator (empty `active_patterns`) has no effective active
patterns: excavating the placeholder (empty) node corpus keeps nothing. -/
lemma effective_active_patterns_of_empty (v : TimelineConsistencyValidator)
    (hap : v.active_patterns = []) : effective_active_patterns v = [] := by
  unfold effective_active_patterns
  rw [if_pos hap, _get_all_nodes, excavate_patterns_nil]

lemma pattern_consistency_no_active (s : StoryState) (n : TimelineNode) :
    _validate_pattern_consistency [] s n = 1 := by
  simp [_validate_pattern_consistency]

lemma thematic_drift_no_themes (w : List (String × ℚ)) :
    _calculate_thematic_drift w [] [] [] = 0 := by
  simp [_calculate_thematic_drift, allThemes]

/-- Counterexample to claim C2 as stated: at a state with NO available
actions the call accepts and returns the *unchanged* drift (here 1), while
the claimed formula evaluates to 0.28 — so "for every accepted transition the
returned drift equals the formula" is false on this input. -/
theorem claim_C2_counterexample :
    validate_story_progression exValidatorC2 (some cxStateNoActions) exNode2
      = (true, 1, "No actions available") ∧
    min (max (cxStateNoActions.canonical_drift
        * (if exNode2.id ∈ exValidatorC2.canonical_nodes then (7:ℚ)/10 else 13/10)
        * (2/5)
      + _calculate_thematic_drift exValidatorC2.thematic_weights
          cxStateNoActions.active_themes exNode2.thematic_elements
          (effective_active_patterns exValidatorC2) * (3/10)
      + (1 - _validate_pattern_consistency (effective_active_patterns exValidatorC2)
          cxStateNoActions exNode2) * (3/10)) 0) 1 = 7/25 ∧
    (1 : ℚ) ≠ 7/25 := by
  refine ⟨rfl, ?_, by norm_num⟩
  have heff : effective_active_patterns exValidatorC2 = [] :=
    effective_active_patterns_of_empty exValidatorC2 rfl
  rw [heff, pattern_consistency_no_active]
  have hmem : exNode2.id ∈ exValidatorC2.canonical_nodes := by
    show "2" ∈ ["2"]
    simp
  rw [if_pos hmem]
  show min (max ((1:ℚ) * (7/10) * (2/5)
    + _calculate_thematic_drift initial_thematic_weights [] [] [] * (3/10)
    + (1 - 1) * (3/10)) 0) 1 = 7/25
  rw [thematic_drift_no_themes]
  norm_num [min_def, max_def]

/-- Witness for the amended C2 at the spec's own example: drift 0.2, a
canonical next beat, identical (empty) theme sets, pattern consistency 1;
the accepted drift is 0.2 × 0.7 × 0.4 = 0.056 = 7/125. -/
theorem claim_C2_witness :
    exState.available_actions = exActionTo2 :: [] ∧
    (validate_story_progression exValidatorC2 (some exState) exNode2).1 = true ∧
    (validate_story_progression exValidatorC2 (some exState) exNode2).2.1 =
      min (max (exState.canonical_drift
          * (if exNode2.id ∈ exValidatorC2.canonical_nodes then (7:ℚ)/10 else 13/10)
          * (2/5)
        + _calculate_thematic_drift exValidatorC2.thematic_weights
            exState.active_themes exNode2.thematic_elements
            (effective_active_patterns exValidatorC2) * (3/10)
        + (1 - _validate_pattern_consistency (effective_active_patterns exValidatorC2)
            exState exNode2) * (3/10)) 0) 1 ∧
    (validate_story_progression exValidatorC2 (some exState) exNode2).2.1 = 7/125 := by
  have heff : effective_active_patterns exValidatorC2 = [] :=
    effective_active_patterns_of_empty exValidatorC2 rfl
  have heval : validate_story_progression exValidatorC2 (some exState) exNode2
      = (true, 7/125, "Valid progression") := by
    rw [validate_connected_characterization exValidatorC2 exState exNode2
      exActionTo2 [] rfl (by decide) (Or.inr rfl)]
    rw [heff, pattern_consistency_no_active]
    rw [if_neg (by norm_num : ¬((1:ℚ) < 2/5))]
    have htd : _calculate_thematic_drift exValidatorC2.thematic_weights
        exState.active_themes exNode2.thematic_elements [] = 0 :=
      thematic_drift_no_themes _
    rw [htd]
    unfold _update_canonical_drift
    have hmem : (decide (exNode2.id ∈ exValidatorC2.canonical_nodes)) = true := by
      show decide ("2" ∈ ["2"]) = true
      simp
    rw [hmem]
    show (true,
      min (max ((1:ℚ)/5 * (7/10) * (2/5) + 0 * (3/10) + (1 - 1) * (3/10)) 0) 1,
      "Valid progression") = (true, 7/125, "Valid progression")
    norm_num [min_def, max_def]
  refine ⟨rfl, by rw [heval], ?_, by rw [heval]⟩
  exact claim_C2_accepted_drift_formula exValidatorC2 exState exNode2 exActionTo2 []
    rfl (by rw [heval])

/-- `filterMap` collapses to `map` when the function succeeds everywhere. -/
lemma filterMap_congr_map {α β : Type} (l : List α) (f : α → Option β)
    (g : α → β) (h : ∀ x ∈ l, f x = some (g x)) : l.filterMap f = l.map g := by
  induction l with
  | nil => rfl
  | cons x xs ih =>
    simp only [List.filterMap_cons, List.map_cons, h x (by simp)]
    rw [ih (fun y hy => h y (by simp [hy]))]

/-- On a pattern with core themes and a beat with characters present, the
source's guarded score coincides with the spec's fraction blend. -/
lemma pattern_score_eq_blend (n : TimelineNode) (p : ArchetypalPattern) (r : ℚ)
    (hp : p.core_themes ≠ []) (hc : n.characters_present ≠ []) :
    pattern_score n p r = patternBlendSpec n p r := by
  simp only [pattern_score, patternBlendSpec, if_neg hp, if_neg hc]

/-- The code's pattern consistency equals the spec formula whenever every
active pattern id resolves in the library to a pattern with core themes, and
the beat has characters present. -/
lemma pattern_consistency_spec_eq (active : List (String × ℚ))
    (s : StoryState) (n : TimelineNode)
    (hpat : ∀ pr ∈ active, ∃ p, List.lookup pr.1 archetypal_patterns = some p
      ∧ p.core_themes ≠ [])
    (hchars : n.characters_present ≠ []) :
    _validate_pattern_consistency active s n = patternConsistencySpec active n := by
  unfold _validate_pattern_consistency patternConsistencySpec
  by_cases hap : active = []
  · simp [hap]
  · rw [if_neg hap, if_neg hap]
    have key : active.filterMap (fun pr =>
        match List.lookup pr.1 archetypal_patterns with
        | none => none
        | some pattern => some (pattern_score n pattern pr.2)) =
        active.map (fun pr =>
          patternBlendSpec n ((List.lookup pr.1 archetypal_patterns).getD default)
            pr.2) := by
      refine filterMap_congr_map active _ _ ?_
      intro pr hpr
      obtain ⟨p, hp, hpcore⟩ := hpat pr hpr
      rw [hp]
      simp only [Option.getD_some]
      exact congrArg some (pattern_score_eq_blend n p pr.2 hpcore hchars)
    rw [key]
    rw [if_neg (by simpa using hap)]
    rw [List.length_map]

/-- Claim C3: pattern consistency is the per-pattern blend of theme-overlap
fraction (× 0.6) and character-role-overlap fraction (× 0.4) weighted by
resonance and averaged over the active patterns, and a value below 0.4 makes
`validate_story_progression` reject regardless of thematic drift (the drift
computation sits after the rejection in the source). -/
theorem claim_C3_pattern_consistency (v : TimelineConsistencyValidator)
    (s : StoryState) (n : TimelineNode) (a : CharacterAction)
    (rest : List CharacterAction)
    (hA : s.available_actions = a :: rest)
    (hconn : n.id ∈ a.consequences)
    (hpat : ∀ pr ∈ v.active_patterns, ∃ p,
      List.lookup pr.1 archetypal_patterns = some p ∧ p.core_themes ≠ [])
    (hchars : n.characters_present ≠ []) :
    _validate_pattern_consistency v.active_patterns s n
      = patternConsistencySpec v.active_patterns n ∧
    (_validate_pattern_consistency v.active_patterns s n < 2/5 →
      validate_story_progression v (some s) n
        = (false, 1, "Progression breaks archetypal pattern consistency")) := by
  refine ⟨pattern_consistency_spec_eq v.active_patterns s n hpat hchars, ?_⟩
  intro hpc
  have hap : v.active_patterns ≠ [] := by
    intro h
    rw [h, pattern_consistency_no_active] at hpc
    norm_num at hpc
  have heff : effective_active_patterns v = v.active_patterns := by
    unfold effective_active_patterns
    rw [if_neg hap]
  rw [validate_connected_characterization v s n a rest hA hconn (Or.inl hap)]
  rw [heff, if_pos hpc]

/-- Witness for C3: one active pattern (tragic fall, resonance 0.5) and a
beat sharing no themes and no character roles with it.  The consistency is 0,
below the 0.4 threshold, and the transition is rejected. -/
theorem claim_C3_witness :
    (∀ pr ∈ exValidatorC3.active_patterns, ∃ p,
      List.lookup pr.1 archetypal_patterns = some p ∧ p.core_themes ≠ []) ∧
    exNodeC3.characters_present ≠ [] ∧
    _validate_pattern_consistency exValidatorC3.active_patterns exState exNodeC3
      = patternConsistencySpec exValidatorC3.active_patterns exNodeC3 ∧
    _validate_pattern_consistency exValidatorC3.active_patterns exState exNodeC3
      < 2/5 ∧
    validate_story_progression exValidatorC3 (some exState) exNodeC3
      = (false, 1, "Progression breaks archetypal pattern consistency") := by
  have hpat : ∀ pr ∈ exValidatorC3.active_patterns, ∃ p,
      List.lookup pr.1 archetypal_patterns = some p ∧ p.core_themes ≠ [] := by
    intro pr hpr
    simp only [exValidatorC3, List.mem_singleton] at hpr
    subst hpr
    exact ⟨tragic_fall_pattern, rfl, by simp [tragic_fall_pattern]⟩
  have hchars : exNodeC3.characters_present ≠ [] := by simp [exNodeC3]
  have hlk : List.lookup "tragic_fall" archetypal_patterns
      = some tragic_fall_pattern := rfl
  have h1 : tragic_fall_pattern.core_themes.filter
      (fun theme => hasKey exNodeC3.thematic_elements theme) = [] := by decide
  have h2 : exNodeC3.characters_present.filter
      (fun char_id => hasKey tragic_fall_pattern.character_roles char_id) = [] := by
    decide
  have hscore : pattern_score exNodeC3 tragic_fall_pattern (1/2) = 0 := by
    simp only [pattern_score, h1, h2]
    norm_num [tragic_fall_pattern, exNodeC3]
    simp
  have hpcval : _validate_pattern_consistency exValidatorC3.active_patterns
      exState exNodeC3 = 0 := by
    show _validate_pattern_consistency [("tragic_fall", 1/2)] exState exNodeC3 = 0
    unfold _validate_pattern_consistency
    rw [if_neg (by simp : ¬([("tragic_fall", (1:ℚ)/2)] = []))]
    simp only [List.filterMap_cons, List.filterMap_nil, hlk, hscore]
    norm_num
  have hpc : _validate_pattern_consistency exValidatorC3.active_patterns
      exState exNodeC3 < 2/5 := by
    rw [hpcval]; norm_num
  have main := claim_C3_pattern_consistency exValidatorC3 exState exNodeC3
    exActionTo2 [] rfl (by decide) hpat hchars
  exact ⟨hpat, hchars, main.1, hpc, main.2 hpc⟩
